import Mathlib

/-!
Verification development for the EcoBot chat proxy.

The development gives a shallow embedding of the backend endpoint
(`server.js`), of the earlier backend revision kept alongside it
(`unnamed/part_000`), and of the client-side response parsing
(`my-chatbot-app/src/App.jsx`).  JavaScript string primitives
(`String.prototype.split` with a non-empty separator, `trim`,
`toLowerCase`) are embedded as explicit functions on `List Char`, and
the intent regular expression is embedded as a backtracking matcher
with JavaScript semantics (leftmost match, greedy quantifiers,
alternation tried left to right).  Network collaborators (Gemini,
OpenWeatherMap geocoding and air pollution, Pexels) are parameters of
the endpoint function: each request supplies an oracle describing the
outcome of every outbound call.
-/

namespace ChatbotIR

/-! ## JavaScript string primitives -/

/-- The ASCII part of the JavaScript whitespace class used both by
`String.prototype.trim` and by the regex class `\s`. -/
def jsWs (c : Char) : Bool :=
  c = ' ' || c = '\t' || c = '\n' || c = '\r' || c = '\x0b' || c = '\x0c'

/-- JavaScript `String.prototype.trim`: drop whitespace from both ends. -/
def jsTrim (l : List Char) : List Char :=
  ((l.dropWhile jsWs).reverse.dropWhile jsWs).reverse

/-- `trim` lifted back to `String`. -/
def strTrim (s : String) : String :=
  String.mk (jsTrim s.data)

/-- JavaScript `rawText.split('||')`: split on non-overlapping
occurrences of the two-character delimiter, scanning left to right. -/
def split2bar : List Char → List (List Char)
  | [] => [[]]
  | [c] => [[c]]
  | c₁ :: c₂ :: rest =>
    if c₁ = '|' ∧ c₂ = '|' then
      [] :: split2bar rest
    else
      match split2bar (c₂ :: rest) with
      | [] => [[c₁]]
      | s :: ss => (c₁ :: s) :: ss

/-- JavaScript `s.split(sep)` for a single-character separator
(used with `'|'` for suggestion chips and `' '` for stop-word
filtering). -/
def splitOnChar (sep : Char) : List Char → List (List Char)
  | [] => [[]]
  | c :: rest =>
    if c = sep then
      [] :: splitOnChar sep rest
    else
      match splitOnChar sep rest with
      | [] => [[c]]
      | s :: ss => (c :: s) :: ss

/-- JavaScript `Array.prototype.join` with a one-character separator. -/
def joinChar (sep : Char) : List (List Char) → List Char
  | [] => []
  | [w] => w
  | w :: ws => w ++ sep :: joinChar sep ws

/-! ## The intent regular expression

`server.js` line 94 matches the query against
`/(?:aqi|pollution)\s+(?:in\s+)?([a-zA-Z\s]+)/i` and keeps the first
capture group.  The functions below implement exactly that pattern
with JavaScript backtracking semantics: the engine tries every start
position from the left, the alternation tries `aqi` before
`pollution`, `\s+` and the optional group are greedy, and the capture
class `[a-zA-Z\s]+` is greedy with nothing after it. -/

/-- Case-insensitive character comparison (the regex `i` flag). -/
def charIEq (a b : Char) : Bool := a.toLower = b.toLower

/-- Strip a literal pattern prefix case-insensitively, returning the
remaining input on success. -/
def dropPrefixI : List Char → List Char → Option (List Char)
  | [], s => some s
  | _ :: _, [] => none
  | p :: ps, c :: cs => if charIEq p c then dropPrefixI ps cs else none

/-- The character class `[a-zA-Z\s]` of the capture group. -/
def cityChar (c : Char) : Bool := c.isAlpha || jsWs c

/-- The capture group `([a-zA-Z\s]+)`: a maximal non-empty run of
letters and whitespace. -/
def capture1 (cs : List Char) : Option (List Char) :=
  let run := cs.takeWhile cityChar
  if run.isEmpty then none else some run

/-- Greedy `\s*` followed by the continuation `k`, with backtracking:
longer whitespace runs are tried first. -/
def wsStarThen (k : List Char → Option (List Char)) : List Char → Option (List Char)
  | [] => k []
  | c :: rest =>
    if jsWs c then
      (wsStarThen k rest).orElse (fun _ => k (c :: rest))
    else
      k (c :: rest)

/-- Greedy `\s+` followed by the continuation `k`. -/
def wsPlusThen (k : List Char → Option (List Char)) : List Char → Option (List Char)
  | [] => none
  | c :: rest => if jsWs c then wsStarThen k rest else none

/-- The optional group `(?:in\s+)?` followed by the capture group:
matching `in` plus whitespace is tried first, the empty alternative
second. -/
def optInThen (cs : List Char) : Option (List Char) :=
  match dropPrefixI ['i', 'n'] cs with
  | some r => (wsPlusThen capture1 r).orElse (fun _ => capture1 cs)
  | none => capture1 cs

/-- Try the whole pattern at one start position. -/
def matchAt (cs : List Char) : Option (List Char) :=
  match dropPrefixI ['a', 'q', 'i'] cs with
  | some r => wsPlusThen optInThen r
  | none =>
    match dropPrefixI ['p', 'o', 'l', 'l', 'u', 't', 'i', 'o', 'n'] cs with
    | some r => wsPlusThen optInThen r
    | none => none

/-- Scan start positions left to right (JavaScript `String.match`
without the `g` flag returns the leftmost match). -/
def jsFind : List Char → Option (List Char)
  | [] => none
  | c :: rest => (matchAt (c :: rest)).orElse (fun _ => jsFind rest)

/-- `query.match(/(?:aqi|pollution)\s+(?:in\s+)?([a-zA-Z\s]+)/i)`,
reduced to the only datum the endpoint uses: the first capture group
of the first match, or `none` when the pattern does not match. -/
def aqiMatchCapture (q : String) : Option String :=
  (jsFind q.data).map String.mk

/-! ## `server.js` collaborator helpers -/

/-- One geocoding result (`geoData[0]` in `fetchRealTimeAQI`). -/
structure GeoEntry where
  name : String
  lat : Int
  lon : Int
  deriving DecidableEq, Repr

/-- The data `fetchRealTimeAQI` reads out of a well-formed air
pollution payload: `aqiData.list[0].main.aqi` and
`aqiData.list[0].components` (component concentrations are kept as
raw JSON text). -/
structure AqiPayload where
  aqiIndex : Int
  components : List (String × String)
  deriving DecidableEq, Repr

/-- The request-scoped air-quality snapshot returned by
`fetchRealTimeAQI`.  `status` is `none` when the JavaScript object
lookup `aqiLabels[aqiIndex]` yields `undefined`. -/
structure Snapshot where
  city : String
  index : Int
  status : Option String
  components : List (String × String)
  deriving DecidableEq, Repr

/-- The lookup table `{ 1: "Good", 2: "Fair", 3: "Moderate",
4: "Poor", 5: "Very Poor" }`; any other key reads as `undefined`. -/
def aqiLabels (i : Int) : Option String :=
  if i = 1 then some "Good"
  else if i = 2 then some "Fair"
  else if i = 3 then some "Moderate"
  else if i = 4 then some "Poor"
  else if i = 5 then some "Very Poor"
  else none

/-- `fetchRealTimeAQI(city)` (`server.js` lines 56-82).  `geo` is the
outcome of the geocoding call (`Except.error` models a thrown error
anywhere in the fetch or JSON parse, which the surrounding
`try/catch` converts to `null`); `aqi` is the outcome of the
pollution-by-coordinate call, where a malformed payload is a thrown
`TypeError` on `aqiData.list[0]` and hence also `Except.error`.
A missing `WEATHER_API_KEY` short-circuits to `null` before any
call. -/
def fetchRealTimeAQI (hasWeatherKey : Bool)
    (geo : String → Except Unit (List GeoEntry))
    (aqi : GeoEntry → Except Unit AqiPayload) (city : String) : Option Snapshot :=
  if !hasWeatherKey then none
  else
    match geo city with
    | .error _ => none
    | .ok [] => none
    | .ok (g :: _) =>
      match aqi g with
      | .error _ => none
      | .ok p => some ⟨g.name, p.aqiIndex, aqiLabels p.aqiIndex, p.components⟩

/-- Outcome of one Pexels search call, as observed by
`fetchEnvironmentalImage`: a thrown error (network failure or
malformed JSON), a non-success HTTP status (`!response.ok`), or a
parsed payload carrying the list of `photos[i].src.medium` URLs. -/
inductive ImageOutcome where
  | throws : ImageOutcome
  | badStatus : ImageOutcome
  | ok : List String → ImageOutcome
  deriving DecidableEq, Repr

/-- `fetchEnvironmentalImage(keyword)` (`server.js` lines 37-53):
missing `PEXELS_API_KEY`, a thrown error, a bad status, or an empty
result list all resolve to `null`; otherwise the first photo's
medium-size URL is returned. -/
def fetchEnvironmentalImage (hasPexelsKey : Bool) (o : ImageOutcome) : Option String :=
  if !hasPexelsKey then none
  else
    match o with
    | .throws => none
    | .badStatus => none
    | .ok [] => none
    | .ok (u :: _) => some u

/-! ## Parsing the model output (`server.js` lines 109-118) -/

/-- The fixed apology substituted when segment 0 is falsy. -/
def apologyText : String := "Sorry, I couldn't generate an answer."

/-- `parts[0] ? parts[0].trim() : "Sorry, I couldn't generate an
answer."` — note that JavaScript truthiness is tested on the raw
segment, before trimming. -/
def textResponse (raw : String) : String :=
  match split2bar raw.data with
  | [] => apologyText
  | p0 :: _ => if p0 = [] then apologyText else String.mk (jsTrim p0)

/-- `(parts[1] && parts[1].trim().length > 0) ? parts[1].trim() :
"Nature"`. -/
def imageKeyword (raw : String) : String :=
  match (split2bar raw.data).get? 1 with
  | none => "Nature"
  | some p1 =>
    if p1 = [] then "Nature"
    else if jsTrim p1 = [] then "Nature"
    else String.mk (jsTrim p1)

/-- `parts[2] ? parts[2].trim() : ""`. -/
def suggestionsRaw (raw : String) : String :=
  match (split2bar raw.data).get? 2 with
  | none => ""
  | some p2 => if p2 = [] then "" else String.mk (jsTrim p2)

/-- The reassembled wire string sent to the client
(`server.js` line 128). -/
def frontendResponseText (raw : String) : String :=
  textResponse raw ++ "||" ++ suggestionsRaw raw

/-! ## The `POST /api/chat` endpoint (`server.js` lines 85-139) -/

/-- The request body.  `query = none` models a body without the
field; the empty string is also falsy in the `if (!query)` guard. -/
structure ChatRequest where
  query : Option String
  includeImage : Bool
  deriving DecidableEq, Repr

/-- Which outbound collaborators one request invoked.  `imageTerm`
records the search term handed to `fetchEnvironmentalImage` when the
image branch ran. -/
structure CallLog where
  calledModel : Bool
  calledAqi : Bool
  imageTerm : Option String
  deriving DecidableEq, Repr

/-- The log of a request that made no outbound call. -/
def noCalls : CallLog := ⟨false, false, none⟩

/-- The three ways the endpoint answers. -/
inductive HandlerResult where
  | badRequest : String → HandlerResult
  | serverError : String → HandlerResult
  | success : String → Option String → HandlerResult
  deriving DecidableEq, Repr

/-- Per-request oracle for every outbound collaborator: credential
presence and the outcome each call would produce. -/
structure Upstream where
  hasWeatherKey : Bool
  geo : String → Except Unit (List GeoEntry)
  aqi : GeoEntry → Except Unit AqiPayload
  hasPexelsKey : Bool
  image : String → ImageOutcome
  model : String → Except Unit String

/-- The intent gate (`server.js` lines 94-97): on a regex match with
a truthy capture, trim the capture and call `fetchRealTimeAQI`.
Returns the snapshot (or `none`) and whether the helper was
invoked. -/
def detectAndFetch (up : Upstream) (q : String) : Option Snapshot × Bool :=
  match aqiMatchCapture q with
  | some cap =>
    if cap = "" then (none, false)
    else (fetchRealTimeAQI up.hasWeatherKey up.geo up.aqi (strTrim cap), true)
  | none => (none, false)

/-- The augmented prompt built on a snapshot hit (`server.js`
line 99); an `undefined` status interpolates as the text
"undefined" in a template literal. -/
def augmentedPrompt (q : String) (s : Snapshot) : String :=
  "User Question: " ++ q ++ ". SYSTEM DATA: The AQI in " ++ s.city ++
    " is " ++ toString s.index ++ " (" ++ s.status.getD "undefined" ++
    "). Explain this."

/-- Prompt construction: the original query unless a snapshot was
fetched. -/
def buildPrompt (up : Upstream) (q : String) : String × Option Snapshot :=
  match (detectAndFetch up q).1 with
  | some s => (augmentedPrompt q s, some s)
  | none => (q, none)

/-- The endpoint body, returning the HTTP-level result and the call
log.  Control flow mirrors `server.js` lines 85-139: validation,
intent gate, model call (the only throw site reaching the outer
`catch`), parsing, conditional image fetch, response assembly. -/
def chatHandler (req : ChatRequest) (up : Upstream) : HandlerResult × CallLog :=
  match req.query with
  | none => (.badRequest "Query is required", noCalls)
  | some q =>
    if q = "" then (.badRequest "Query is required", noCalls)
    else
      let df := detectAndFetch up q
      let fetchedAQI := df.1
      let prompt := (buildPrompt up q).1
      match up.model prompt with
      | .error _ => (.serverError "Failed to generate response", ⟨true, df.2, none⟩)
      | .ok raw =>
        let doImage := req.includeImage || fetchedAQI.isSome
        let img :=
          if doImage then
            fetchEnvironmentalImage up.hasPexelsKey (up.image (imageKeyword raw))
          else none
        (.success (frontendResponseText raw) img,
          ⟨true, df.2, if doImage then some (imageKeyword raw) else none⟩)

/-! ## The earlier backend revision (`unnamed/part_000`) -/

/-- The stop-word list of `cleanQueryForImage`. -/
def stopWords : List (List Char) :=
  ["give", "me", "show", "an", "image", "of", "picture", "photo",
   "images", "pictures", "photos", "the", "a", "aqi", "pollution",
   "in"].map String.data

/-- `word.toLowerCase()` (ASCII). -/
def lowerW (w : List Char) : List Char := w.map Char.toLower

/-- `query.split(' ').filter(word =>
!stopWords.includes(word.toLowerCase()))`. -/
def keptWords (q : String) : List (List Char) :=
  (splitOnChar ' ' q.data).filter (fun w => !(stopWords.contains (lowerW w)))

/-- `cleanQueryForImage` (`unnamed/part_000` lines 26-31): join the
surviving words with spaces, falling back to the original query when
every word was filtered out. -/
def cleanQueryForImage (q : String) : String :=
  let ks := keptWords q
  if ks.length > 0 then String.mk (joinChar ' ' ks) else q

/-- The search canvas of the earlier revision (`unnamed/part_000`
line 132): `fetchedAQI ? "Pollution in " + fetchedAQI.city :
query`. -/
def searchCanvas (fetchedAQI : Option Snapshot) (query : String) : String :=
  match fetchedAQI with
  | some s => "Pollution in " ++ s.city
  | none => query

/-- The earlier revision's image helper (`unnamed/part_000` lines
34-47) cleans its argument before searching. -/
def fetchEnvironmentalImageV0 (hasPexelsKey : Bool)
    (search : String → ImageOutcome) (rawQuery : String) : Option String :=
  fetchEnvironmentalImage hasPexelsKey (search (cleanQueryForImage rawQuery))

/-! ## Client-side parsing (`App.jsx` lines 98-105) -/

/-- `parts[0].trim()` of `result.response.split('||')`. -/
def clientText (resp : String) : String :=
  String.mk (jsTrim ((split2bar resp.data).headD []))

/-- `parts[1] ? parts[1].split('|').map(s => s.trim()) : []`. -/
def clientSuggestions (resp : String) : List String :=
  match (split2bar resp.data).get? 1 with
  | none => []
  | some p1 =>
    if p1 = [] then []
    else (splitOnChar '|' p1).map (fun w => String.mk (jsTrim w))

/-! ## Basic lemmas about the embedded primitives -/

theorem split2bar_ne_nil (l : List Char) : split2bar l ≠ [] := by
  match l with
  | [] => simp [split2bar]
  | [c] => simp [split2bar]
  | c₁ :: c₂ :: rest =>
    rw [split2bar]
    split
    · simp
    · split <;> simp

theorem jsTrim_nil : jsTrim [] = [] := rfl

theorem mk_ne_empty_of_ne_nil {l : List Char} (h : l ≠ []) : String.mk l ≠ "" := by
  intro hc
  exact h (by simpa using congrArg String.data hc)

/-- A concrete upstream oracle used by the witnesses below: geocoding
finds Paris, the pollution index is 3, Pexels returns one photo, and
the model answers in the delimited format. -/
def upDemo : Upstream where
  hasWeatherKey := true
  geo := fun _ => .ok [⟨"Paris", 48, 2⟩]
  aqi := fun _ => .ok ⟨3, [("pm2_5", "12.3"), ("pm10", "20.1")]⟩
  hasPexelsKey := true
  image := fun _ => .ok ["https://images.pexels.com/photo1.jpeg"]
  model := fun _ => .ok "ans||Smog||a|b|c"

/-! ## Claim C5: intent detection -/

/-- C5: the single case-insensitive intent pattern captures "Paris"
from "AQI in Paris" and "policy" from "tell me about pollution
policy" (the documented over-broad match), and whenever the pattern
or its capture group is absent the original query is passed through
unchanged as the prompt with no snapshot. -/
theorem c5_intent_pattern :
    aqiMatchCapture "AQI in Paris" = some "Paris" ∧
    aqiMatchCapture "tell me about pollution policy" = some "policy" ∧
    ∀ (up : Upstream) (q : String), aqiMatchCapture q = none →
      buildPrompt up q = (q, none) := by
  refine ⟨by decide, by decide, ?_⟩
  intro up q h
  simp [buildPrompt, detectAndFetch, h]

/-- Witness for C5's pass-through clause at the concrete query
"what is composting", which the pattern does not match. -/
theorem c5_intent_pattern_witness :
    buildPrompt upDemo "what is composting" = ("what is composting", none) :=
  c5_intent_pattern.2.2 upDemo "what is composting" (by decide)

/-! ## Claim C6: index-to-label mapping -/

/-- C6: the snapshot status comes from the fixed mapping 1→Good,
2→Fair, 3→Moderate, 4→Poor, 5→Very Poor; index 3 yields "Moderate",
index 5 yields "Very Poor", any index outside 1-5 (such as 0 or 6)
reads as undefined, and snapshot construction still returns a
snapshot (with an undefined status) rather than crashing. -/
theorem c6_index_labels :
    aqiLabels 3 = some "Moderate" ∧
    aqiLabels 5 = some "Very Poor" ∧
    aqiLabels 0 = none ∧
    aqiLabels 6 = none ∧
    (∀ i : Int, i < 1 ∨ 5 < i → aqiLabels i = none) ∧
    (∀ (g : GeoEntry) (p : AqiPayload) (city : String),
      fetchRealTimeAQI true (fun _ => .ok [g]) (fun _ => .ok p) city =
        some ⟨g.name, p.aqiIndex, aqiLabels p.aqiIndex, p.components⟩) := by
  refine ⟨by decide, by decide, by decide, by decide, ?_, fun g p city => rfl⟩
  intro i hi
  unfold aqiLabels
  split
  · omega
  · split
    · omega
    · split
      · omega
      · split
        · omega
        · split
          · omega
          · rfl

/-- Witness for C6's out-of-range clause at the concrete index 7. -/
theorem c6_index_labels_witness : aqiLabels 7 = none :=
  c6_index_labels.2.2.2.2.1 7 (Or.inr (by decide))

/-! ## Claim C1: the answerText fallback -/

/-- C1 counterexample: the claim says the parsed answerText is never
empty, but the truthiness test runs on the raw segment before
trimming, so a whitespace-only segment 0 survives the fallback and
trims to the empty string. -/
theorem c1_counterexample : textResponse " ||x||y" = "" := by decide

/-- C1 amended: each segment is trimmed, and the apology is
substituted exactly when segment 0 is the empty string; the parsed
answerText is therefore non-empty whenever segment 0 is empty or
contains a non-whitespace character, while a non-empty all-whitespace
segment 0 yields an empty answerText. -/
theorem c1_amended (raw : String) :
    ((split2bar raw.data).headD [] = [] → textResponse raw = apologyText) ∧
    (jsTrim ((split2bar raw.data).headD []) ≠ [] →
      textResponse raw = String.mk (jsTrim ((split2bar raw.data).headD [])) ∧
      textResponse raw ≠ "") := by
  match hs : split2bar raw.data with
  | [] => exact absurd hs (split2bar_ne_nil _)
  | p0 :: rest =>
    simp only [List.headD_cons]
    constructor
    · intro h0
      simp [textResponse, hs, h0]
    · intro ht
      have hp0 : p0 ≠ [] := fun h => ht (by simp [h, jsTrim_nil])
      refine ⟨by simp [textResponse, hs, hp0], ?_⟩
      simp only [textResponse, hs, hp0, if_neg]
      exact mk_ne_empty_of_ne_nil ht

/-- Witness for C1 amended: the empty output yields the apology, and
an output with a non-whitespace first segment yields a non-empty
answer. -/
theorem c1_amended_witness :
    textResponse "" = apologyText ∧ textResponse "hi||k||s" ≠ "" :=
  ⟨(c1_amended "").1 (by decide), ((c1_amended "hi||k||s").2 (by decide)).2⟩

/-! ## Claim C10: response reassembly -/

/-- C10: the client-visible response is exactly the parsed answerText,
the literal delimiter, and the trimmed third segment of the model
output (empty when absent): segment 1 (the image keyword) and every
segment past the third never appear, and the delimiter is present
even when the model emitted none. -/
theorem c10_response_assembly (raw : String) :
    frontendResponseText raw =
      textResponse raw ++ "||" ++
        String.mk (jsTrim (((split2bar raw.data).get? 2).getD [])) := by
  unfold frontendResponseText suggestionsRaw
  match hs : (split2bar raw.data).get? 2 with
  | none => rfl
  | some p2 =>
    by_cases hp : p2 = []
    · simp [hp, jsTrim_nil]
    · simp [hp]

/-! ## Claim C7: stop-word cleaning -/

theorem joinChar_eq_nil {sep : Char} {w : List Char} {ws : List (List Char)}
    (h : joinChar sep (w :: ws) = []) : w = [] ∧ ws = [] := by
  match ws with
  | [] => exact ⟨h, rfl⟩
  | v :: rest =>
    exfalso
    rw [show joinChar sep (w :: v :: rest) = w ++ sep :: joinChar sep (v :: rest) from rfl] at h
    simp at h

/-- C7 counterexample: the claim says the cleaned search string is
never empty, but splitting "a  a" on single spaces produces an empty
fragment between the two spaces; the fragment is not a stop word, so
it survives the filter, the all-words-removed fallback does not fire,
and joining yields the empty search string from a non-empty input. -/
theorem c7_counterexample :
    ("a  a" : String) ≠ "" ∧ cleanQueryForImage "a  a" = "" := by decide

/-- C7 amended: cleaning removes the fixed case-insensitive stop-word
set ("show me pollution in Delhi" cleans to "Delhi"), and when the
filter removes every word the original uncleaned term is used; the
cleaned term can nevertheless be empty for a non-empty input, exactly
when the only surviving word is an empty fragment produced by
consecutive spaces. -/
theorem c7_amended :
    cleanQueryForImage "show me pollution in Delhi" = "Delhi" ∧
    (∀ q : String, keptWords q = [] → cleanQueryForImage q = q) ∧
    (∀ q : String, cleanQueryForImage q = "" → q = "" ∨ keptWords q = [[]]) := by
  refine ⟨by decide, ?_, ?_⟩
  · intro q h
    simp [cleanQueryForImage, h]
  · intro q h
    unfold cleanQueryForImage at h
    match hk : keptWords q with
    | [] => simp [hk] at h; exact Or.inl h
    | w :: ws =>
      simp only [hk, List.length_cons, if_pos (Nat.succ_pos _)] at h
      have hj : joinChar ' ' (w :: ws) = [] := by
        simpa using congrArg String.data h
      rcases joinChar_eq_nil hj with ⟨hw, hws⟩
      exact Or.inr (by simp [hw, hws])

/-- Witness for C7 amended: "the" is entirely stop words, so the
original term is kept; and the empty-result characterization applied
to the empty query. -/
theorem c7_amended_witness :
    cleanQueryForImage "the" = "the" ∧
    (("" : String) = "" ∨ keptWords "" = [[]]) :=
  ⟨c7_amended.2.1 "the" (by decide), c7_amended.2.2 "" (by decide)⟩

/-! ## Reduction lemmas for the endpoint -/

theorem chatHandler_ok (b : Bool) (q raw : String) (up : Upstream)
    (hq : q ≠ "") (hm : up.model (buildPrompt up q).1 = .ok raw) :
    chatHandler ⟨some q, b⟩ up =
      (.success (frontendResponseText raw)
        (if b || (detectAndFetch up q).1.isSome then
          fetchEnvironmentalImage up.hasPexelsKey (up.image (imageKeyword raw))
        else none),
       ⟨true, (detectAndFetch up q).2,
        if b || (detectAndFetch up q).1.isSome then some (imageKeyword raw)
        else none⟩) := by
  unfold chatHandler
  simp only [hq, if_false, Bool.false_eq_true, ite_false]
  rw [hm]

theorem chatHandler_err (b : Bool) (q : String) (up : Upstream)
    (hq : q ≠ "") (hm : up.model (buildPrompt up q).1 = .error ()) :
    chatHandler ⟨some q, b⟩ up =
      (.serverError "Failed to generate response",
       ⟨true, (detectAndFetch up q).2, none⟩) := by
  unfold chatHandler
  simp only [hq, if_false, Bool.false_eq_true, ite_false]
  rw [hm]

/-! ## Claim C2: image search term resolution -/

/-- C2: when the current endpoint attempts an image fetch, the search
term is the resolved image keyword — the trimmed keyword segment when
the model provided a non-blank one, the fixed default "Nature" when
the segment is empty or absent; in the earlier revision, which has no
keyword segment, the term is "Pollution in city" when a snapshot
exists and the raw user query otherwise. -/
theorem c2_search_term :
    (∀ (b : Bool) (q raw : String) (up : Upstream),
      q ≠ "" → (∀ p, up.model p = Except.ok raw) →
      (chatHandler ⟨some q, b⟩ up).2.imageTerm =
        if b || (detectAndFetch up q).1.isSome then some (imageKeyword raw)
        else none) ∧
    (∀ raw : String, jsTrim (((split2bar raw.data).get? 1).getD []) = [] →
      imageKeyword raw = "Nature") ∧
    (∀ (raw : String) (p1 : List Char), (split2bar raw.data).get? 1 = some p1 →
      jsTrim p1 ≠ [] → imageKeyword raw = String.mk (jsTrim p1)) ∧
    (∀ (s : Snapshot) (q : String), searchCanvas (some s) q = "Pollution in " ++ s.city) ∧
    (∀ q : String, searchCanvas none q = q) := by
  refine ⟨?_, ?_, ?_, fun s q => rfl, fun q => rfl⟩
  · intro b q raw up hq hm
    rw [chatHandler_ok b q raw up hq (hm _)]
  · intro raw h
    unfold imageKeyword
    match hs : (split2bar raw.data).get? 1 with
    | none => rfl
    | some p1 =>
      rw [hs] at h
      simp only [Option.getD_some] at h
      simp [h]
  · intro raw p1 hs ht
    have hp1 : p1 ≠ [] := fun h => ht (by simp [h, jsTrim_nil])
    unfold imageKeyword
    rw [hs]
    simp [hp1, ht]

/-- Witness for C2: a no-intent request with includeImage on searches
with the keyword the model supplied, and the keyword fallback fires
on a blank segment. -/
theorem c2_search_term_witness :
    (chatHandler ⟨some "hi", true⟩ upDemo).2.imageTerm =
      (if true || (detectAndFetch upDemo "hi").1.isSome then
        some (imageKeyword "ans||Smog||a|b|c")
      else none) ∧
    imageKeyword "ans|| ||s" = "Nature" ∧
    imageKeyword "ans||Smog||a|b|c" = String.mk (jsTrim " Smog ".data) := by
  refine ⟨c2_search_term.1 true "hi" "ans||Smog||a|b|c" upDemo (by decide) (fun p => rfl), ?_, ?_⟩
  · exact c2_search_term.2.1 "ans|| ||s" (by decide)
  · exact c2_search_term.2.2.1 "ans||Smog||a|b|c" "Smog".data (by decide) (by decide)

/-! ## Claim C3: when the image fetch is attempted -/

/-- C3: for every request that reaches the model, the image-search
call is attempted exactly when the caller set includeImage or a
snapshot was produced; a snapshot forces the fetch even with
includeImage=false, and with includeImage=false and no snapshot the
request returns a null image and no image-search call is made. -/
theorem c3_image_policy (b : Bool) (q raw : String) (up : Upstream)
    (hq : q ≠ "") (hm : ∀ p, up.model p = Except.ok raw) :
    ((chatHandler ⟨some q, b⟩ up).2.imageTerm.isSome ↔
      (b = true ∨ (detectAndFetch up q).1.isSome = true)) ∧
    (b = false → (detectAndFetch up q).1 = none →
      (chatHandler ⟨some q, b⟩ up).2.imageTerm = none ∧
      (chatHandler ⟨some q, b⟩ up).1 = .success (frontendResponseText raw) none) ∧
    ((detectAndFetch up q).1.isSome = true →
      (chatHandler ⟨some q, b⟩ up).2.imageTerm = some (imageKeyword raw)) := by
  rw [chatHandler_ok b q raw up hq (hm _)]
  refine ⟨?_, ?_, ?_⟩
  · by_cases hb : b <;> by_cases hf : (detectAndFetch up q).1.isSome <;>
      simp [hb, hf]
  · intro hb hf
    simp [hb, hf]
  · intro hf
    simp [hf]

/-- Witness for C3: the air-quality query "aqi in Paris" against the
demo oracle produces a snapshot, so the image fetch fires although
includeImage is false. -/
theorem c3_image_policy_witness :
    (chatHandler ⟨some "aqi in Paris", false⟩ upDemo).2.imageTerm =
      some (imageKeyword "ans||Smog||a|b|c") :=
  (c3_image_policy false "aqi in Paris" "ans||Smog||a|b|c" upDemo
    (by decide) (fun p => rfl)).2.2 (by decide)

/-! ## Claim C8: fail-soft collaborators -/

/-- C8: only a model-invocation failure is fatal.  Whatever the
geocoding, air-quality and image oracles do, a request with a
successful model call returns a success response; and each listed
collaborator failure — missing credential, thrown error or malformed
payload, empty geocoding result, non-success HTTP status, no image
results — degrades to a null snapshot or a null image URL. -/
theorem c8_fail_soft :
    (∀ (b : Bool) (q : String) (up : Upstream),
      q ≠ "" → (∀ p, ∃ r, up.model p = Except.ok r) →
      ∃ resp img, (chatHandler ⟨some q, b⟩ up).1 = .success resp img) ∧
    (∀ (geoF : String → Except Unit (List GeoEntry))
       (aqiF : GeoEntry → Except Unit AqiPayload) (city : String),
      fetchRealTimeAQI false geoF aqiF city = none) ∧
    (∀ (aqiF : GeoEntry → Except Unit AqiPayload) (city : String),
      fetchRealTimeAQI true (fun _ => .error ()) aqiF city = none) ∧
    (∀ (aqiF : GeoEntry → Except Unit AqiPayload) (city : String),
      fetchRealTimeAQI true (fun _ => .ok []) aqiF city = none) ∧
    (∀ (g : GeoEntry) (city : String),
      fetchRealTimeAQI true (fun _ => .ok [g]) (fun _ => .error ()) city = none) ∧
    (∀ o : ImageOutcome, fetchEnvironmentalImage false o = none) ∧
    (∀ k : Bool, fetchEnvironmentalImage k .throws = none) ∧
    (∀ k : Bool, fetchEnvironmentalImage k .badStatus = none) ∧
    (∀ k : Bool, fetchEnvironmentalImage k (.ok []) = none) := by
  refine ⟨?_, fun geoF aqiF city => rfl, fun aqiF city => rfl, fun aqiF city => rfl,
    fun g city => rfl, fun o => rfl, ?_, ?_, ?_⟩
  · intro b q up hq hm
    obtain ⟨raw, hraw⟩ := hm (buildPrompt up q).1
    rw [chatHandler_ok b q raw up hq hraw]
    exact ⟨_, _, rfl⟩
  all_goals intro k; cases k <;> rfl

/-- Witness for C8: the request succeeds against an oracle whose
geocoding throws, whose Pexels key is missing, and whose model
answers. -/
theorem c8_fail_soft_witness :
    ∃ resp img,
      (chatHandler ⟨some "aqi in Paris", true⟩
        ⟨true, fun _ => .error (), fun _ => .error (), false, fun _ => .throws,
         fun _ => .ok "ok"⟩).1 = .success resp img :=
  c8_fail_soft.1 true "aqi in Paris"
    ⟨true, fun _ => .error (), fun _ => .error (), false, fun _ => .throws,
     fun _ => .ok "ok"⟩ (by decide) (fun p => ⟨"ok", rfl⟩)

/-! ## Claim C9: validation and the 500 path -/

/-- C9: a request body without a non-empty query string gets HTTP 400
with the fixed error body and no upstream call of any kind; an
unhandled internal failure (the model call throwing) gets HTTP 500
with the fixed error body and nothing else. -/
theorem c9_validation :
    (∀ (b : Bool) (up : Upstream),
      chatHandler ⟨none, b⟩ up = (.badRequest "Query is required", noCalls)) ∧
    (∀ (b : Bool) (up : Upstream),
      chatHandler ⟨some "", b⟩ up = (.badRequest "Query is required", noCalls)) ∧
    (∀ (b : Bool) (q : String) (up : Upstream), q ≠ "" →
      (∀ p, up.model p = Except.error ()) →
      (chatHandler ⟨some q, b⟩ up).1 = .serverError "Failed to generate response") := by
  refine ⟨fun b up => rfl, fun b up => rfl, ?_⟩
  intro b q up hq hm
  rw [chatHandler_err b q up hq (hm _)]

/-- Witness for C9's 500 clause: a throwing model oracle yields the
fixed serverError body. -/
theorem c9_validation_witness :
    (chatHandler ⟨some "hi", false⟩
      ⟨true, fun _ => .ok [], fun _ => .error (), true, fun _ => .ok [],
       fun _ => .error ()⟩).1 = .serverError "Failed to generate response" :=
  c9_validation.2.2 false "hi"
    ⟨true, fun _ => .ok [], fun _ => .error (), true, fun _ => .ok [],
     fun _ => .error ()⟩ (by decide) (fun p => rfl)

/-! ## Claim C4: outputs without the delimiter

A raw output contains no occurrence of the two-character delimiter
exactly when no two adjacent characters are both bars; `noDbarB`
decides that, and `split2bar` produces a single segment exactly
then. -/

/-- No two adjacent characters of the list are both bars, i.e. the
list contains no occurrence of the delimiter. -/
def noDbarB : List Char → Bool
  | [] => true
  | [_] => true
  | c₁ :: c₂ :: rest => if c₁ = '|' ∧ c₂ = '|' then false else noDbarB (c₂ :: rest)

theorem chain'_of_noDbarB : ∀ l : List Char, noDbarB l = true →
    List.Chain' (fun a b => ¬(a = '|' ∧ b = '|')) l
  | [], _ => List.chain'_nil
  | [c], _ => List.chain'_singleton c
  | c₁ :: c₂ :: rest, h => by
    rw [noDbarB] at h
    split at h
    · exact absurd h (by simp)
    · exact List.chain'_cons.mpr ⟨by assumption, chain'_of_noDbarB (c₂ :: rest) h⟩

theorem noDbarB_of_chain' : ∀ l : List Char,
    List.Chain' (fun a b => ¬(a = '|' ∧ b = '|')) l → noDbarB l = true
  | [], _ => rfl
  | [_], _ => rfl
  | c₁ :: c₂ :: rest, h => by
    rcases List.chain'_cons.mp h with ⟨h1, h2⟩
    rw [noDbarB, if_neg h1]
    exact noDbarB_of_chain' (c₂ :: rest) h2

/-- Trimming never creates a delimiter occurrence. -/
theorem noDbarB_jsTrim (l : List Char) (h : noDbarB l = true) :
    noDbarB (jsTrim l) = true := by
  have flipStep : ∀ m : List Char,
      List.Chain' (fun a b => ¬(a = '|' ∧ b = '|')) m →
      List.Chain' (flip (fun a b : Char => ¬(a = '|' ∧ b = '|'))) m :=
    fun m hm => hm.imp (fun a b hab => fun hp => hab ⟨hp.2, hp.1⟩)
  apply noDbarB_of_chain'
  unfold jsTrim
  have h1 := (chain'_of_noDbarB l h).suffix (List.dropWhile_suffix jsWs)
  have h2 := List.chain'_reverse.mpr (flipStep _ h1)
  have h3 := h2.suffix (List.dropWhile_suffix jsWs)
  exact List.chain'_reverse.mpr (flipStep _ h3)

/-- A delimiter-free list splits into itself as the only segment. -/
theorem split2bar_eq_single : ∀ l : List Char, noDbarB l = true →
    split2bar l = [l]
  | [], _ => rfl
  | [_], _ => rfl
  | c₁ :: c₂ :: rest, h => by
    rw [noDbarB] at h
    split at h
    · exact absurd h (by simp)
    · rw [split2bar, if_neg (by assumption),
        split2bar_eq_single (c₂ :: rest) h]

/-- A single-segment split means the input was delimiter-free. -/
theorem noDbarB_of_single : ∀ l : List Char, (split2bar l).length = 1 →
    noDbarB l = true
  | [], _ => rfl
  | [_], _ => rfl
  | c₁ :: c₂ :: rest, h => by
    rw [split2bar] at h
    split at h
    · rw [List.length_cons] at h
      exact absurd (List.length_eq_zero.mp (by omega)) (split2bar_ne_nil rest)
    · rw [noDbarB, if_neg (by assumption)]
      apply noDbarB_of_single (c₂ :: rest)
      match hsp : split2bar (c₂ :: rest) with
      | [] => exact absurd hsp (split2bar_ne_nil _)
      | s :: ss =>
        rw [hsp] at h
        rw [List.length_cons] at h ⊢
        omega

/-- Appending one delimiter to a delimiter-free list that does not
end in a bar splits into that list and an empty tail segment. -/
theorem split2bar_append_delims : ∀ l : List Char, noDbarB l = true →
    l.getLast? ≠ some '|' → split2bar (l ++ ['|', '|']) = [l, []]
  | [], _, _ => rfl
  | [c], _, hl => by
    have hc : ¬(c = '|' ∧ ('|' : Char) = '|') := fun hp => hl (by rw [hp.1]; rfl)
    rw [show ([c] ++ ['|', '|'] : List Char) = c :: '|' :: ['|'] from rfl,
      split2bar, if_neg hc, show split2bar ['|', '|'] = [[], []] from rfl]
  | c₁ :: c₂ :: rest, h, hl => by
    rw [noDbarB] at h
    split at h
    · exact absurd h (by simp)
    · have ih := split2bar_append_delims (c₂ :: rest) h
        (by rwa [List.getLast?_cons_cons] at hl)
      rw [show ((c₁ :: c₂ :: rest) ++ ['|', '|']) = c₁ :: c₂ :: (rest ++ ['|', '|'])
          from rfl, split2bar, if_neg (by assumption),
        show (c₂ :: (rest ++ ['|', '|'])) = (c₂ :: rest) ++ ['|', '|'] from rfl, ih]

/-- C4 counterexample: the claim fails twice.  The empty raw output
contains no delimiter, yet the answerText is the apology rather than
the trimmed full text; and for the delimiter-free output "x|" the
trailing bar merges with the delimiter the server appends, so the
client parses two spurious empty suggestion chips instead of an empty
sequence. -/
theorem c4_counterexample :
    ((split2bar ("" : String).data).length = 1 ∧
      textResponse "" = apologyText ∧ apologyText ≠ strTrim "") ∧
    ((split2bar ("x|" : String).data).length = 1 ∧
      clientSuggestions (frontendResponseText "x|") = ["", ""]) := by
  decide

/-- C4 amended: for every non-empty raw output with no delimiter
occurrence, the full trimmed text becomes answerText; the third
segment is absent, so the reassembled suggestion segment is empty;
and the client-parsed suggestions sequence is empty provided the
trimmed text does not end in a bar.  The empty raw output instead
yields the apology (the client suggestions still being empty), and a
trimmed text ending in a bar yields spurious empty chips. -/
theorem c4_amended (raw : String) (h : (split2bar raw.data).length = 1) :
    (raw = "" → textResponse raw = apologyText ∧
      clientSuggestions (frontendResponseText raw) = []) ∧
    (raw ≠ "" → textResponse raw = strTrim raw) ∧
    suggestionsRaw raw = "" ∧
    ((jsTrim raw.data).getLast? ≠ some '|' →
      clientSuggestions (frontendResponseText raw) = []) := by
  have hnd := noDbarB_of_single _ h
  have hsingle := split2bar_eq_single _ hnd
  have hsug : suggestionsRaw raw = "" := by
    unfold suggestionsRaw
    rw [hsingle]
    rfl
  refine ⟨?_, ?_, hsug, ?_⟩
  · rintro rfl
    exact ⟨by decide, by decide⟩
  · intro hq
    have hdata : raw.data ≠ [] := fun hd => hq (String.ext (by rw [hd]))
    unfold textResponse
    rw [hsingle]
    simp [hdata, strTrim]
  · intro hlast
    by_cases hq : raw = ""
    · subst hq
      decide
    · have hdata : raw.data ≠ [] := fun hd => hq (String.ext (by rw [hd]))
      have htr : textResponse raw = String.mk (jsTrim raw.data) := by
        unfold textResponse
        rw [hsingle]
        simp [hdata]
      have hresp : (frontendResponseText raw).data = jsTrim raw.data ++ ['|', '|'] := by
        unfold frontendResponseText
        rw [htr, hsug]
        rw [String.data_append, String.data_append]
        simp
      unfold clientSuggestions
      rw [hresp, split2bar_append_delims _ (noDbarB_jsTrim _ hnd) hlast]
      rfl

/-- Witness for C4 amended at the delimiter-free output
"hello world": the trimmed text is the answer, the suggestion
segment is empty, and the client parses no chips. -/
theorem c4_amended_witness :
    textResponse "hello world" = strTrim "hello world" ∧
    suggestionsRaw "hello world" = "" ∧
    clientSuggestions (frontendResponseText "hello world") = [] :=
  have h := c4_amended "hello world" (by decide)
  ⟨h.2.1 (by decide), h.2.2.1, h.2.2.2 (by decide)⟩

end ChatbotIR
